import Mathlib

/-!
Shallow embedding of `tools/translate_script.py`, a batch tool that performs
dictionary-based word substitution (Spanish → Portuguese) inside one designated
column of semicolon-delimited text files.

Python text operations are modelled over `List Char` / `String`.  Python's
Unicode-aware primitives (`str.lower`, `str.upper`, `str.isupper`, `\w`, `\d`,
`str.isspace`, `str.splitlines`) are modelled faithfully on the ASCII and
Latin-1 repertoire, which covers every character appearing in the script's
dictionary, regexes and markers; characters outside that repertoire do not
occur in the data the claims quantify over.  Each definition mirrors the
corresponding Python source construct and carries the source name.
-/

/-- Python `c.lower()` for a single character, on the ASCII/Latin-1 repertoire:
`A`–`Z` and `À`–`Þ` (except `×`) shift by 32; everything else is unchanged. -/
def pyLowerChar (c : Char) : Char :=
  if 'A' ≤ c && c ≤ 'Z' then Char.ofNat (c.toNat + 32)
  else if 0xC0 ≤ c.toNat && c.toNat ≤ 0xDE && c.toNat ≠ 0xD7 then Char.ofNat (c.toNat + 32)
  else c

/-- Python `c.upper()` for a single character, on the ASCII/Latin-1 repertoire:
`a`–`z` and `à`–`þ` (except `÷`) shift by -32, `ÿ` maps to `Ÿ`; `ß` (which
Python expands to the two-character `SS`, a case that cannot arise from the
script's dictionary values) is left unchanged. -/
def pyUpperChar (c : Char) : Char :=
  if 'a' ≤ c && c ≤ 'z' then Char.ofNat (c.toNat - 32)
  else if 0xE0 ≤ c.toNat && c.toNat ≤ 0xFE && c.toNat ≠ 0xF7 then Char.ofNat (c.toNat - 32)
  else if c.toNat = 0xFF then Char.ofNat 0x178
  else c

/-- Python `c.isupper()` for a single character on the ASCII/Latin-1 repertoire. -/
def pyIsUpperChar (c : Char) : Bool :=
  ('A' ≤ c && c ≤ 'Z') || (0xC0 ≤ c.toNat && c.toNat ≤ 0xDE && c.toNat ≠ 0xD7)

/-- Python `s.lower()` on a character list (character-wise on this repertoire). -/
def pyLowerL (cs : List Char) : List Char := cs.map pyLowerChar

/-- One character of the regex class `[\wÁÉÍÓÚáéíóúÑñÜüçÇ]` from the script:
Python `\w` (Unicode word character) restricted to ASCII and Latin-1, i.e.
ASCII alphanumerics, `_`, `ª` `µ` `º`, and the Latin-1 letters `À`–`ÿ`
except `×` and `÷`.  The accented characters listed explicitly in the script's
class are all contained in this set. -/
def isWordChar (c : Char) : Bool :=
  c.isAlphanum || c = '_' || c.toNat = 0xAA || c.toNat = 0xB5 || c.toNat = 0xBA ||
    (0xC0 ≤ c.toNat && c.toNat ≤ 0xFF && c.toNat ≠ 0xD7 && c.toNat ≠ 0xF7)

/-- The script's `DICT` literal, in Python insertion order.  The Python source
spells the key `'Aceptar'` several times, always with the value `'Aceitar'`;
a Python `dict` keeps the first position and the last value, so the deduplicated
association list below is the exact key/value content and iteration order of
`DICT.items()`. -/
def DICT : List (String × String) :=
  [("Aceptar", "Aceitar"), ("Aceptar.", "Aceitar."), ("Aceptar!", "Aceitar!"),
   ("Aceptar?", "Aceitar?"), ("Aceptar;", "Aceitar;"), ("Aceptar,", "Aceitar,"),
   ("Cancelar", "Cancelar"), ("Sí", "Sim"), ("Si", "Se"), ("No", "Não"),
   ("Bienvenido", "Bem-vindo"), ("Bienvenida", "Bem-vinda"), ("Bienvenidos", "Bem-vindos"),
   ("Cerrar", "Fechar"), ("Abrir", "Abrir"), ("Reino", "Reino"), ("Reyes", "Reis"),
   ("Rey", "Rei"), ("Reina", "Rainha"), ("Hijos", "Filhos"), ("Hijas", "Filhas"),
   ("Hijo", "Filho"), ("Hija", "Filha"), ("Guardar", "Salvar"), ("Cargar", "Carregar"),
   ("Siguiente", "Próximo"), ("Anterior", "Anterior")]

/-- Python `'\\n' in text`: the literal two-character backslash-n sequence
occurs as a substring. -/
def hasLitNewline : List Char → Bool
  | '\\' :: 'n' :: _ => true
  | _ :: rest => hasLitNewline rest
  | [] => false

/-- Helper for `BRACKET_PATTERN`: after an opening `[`, regex `.*?\]` succeeds
iff a `]` occurs before any real newline (`.` does not match `\n`). -/
def bracketAfter : List Char → Bool
  | [] => false
  | c :: rest => if c = ']' then true else if c = '\n' then false else bracketAfter rest

/-- Python `BRACKET_PATTERN.search(text)` for `re.compile(r"\[.*?\]")`:
some `[` is followed (newline-free) by a `]`. -/
def bracketSearch : List Char → Bool
  | [] => false
  | c :: rest => if c = '[' then bracketAfter rest || bracketSearch rest else bracketSearch rest

/-- Scanner for the `\$[^\$]+\$` alternative of `PLACEHOLDER_PATTERN`.
`saw` records that an opening `$` has been seen, `gap` that at least one
non-`$` character follows it; a further `$` then closes a match. -/
def dollarLoop : List Char → Bool → Bool → Bool
  | [], _, _ => false
  | c :: rest, saw, gap =>
    if c = '$' then (saw && gap) || dollarLoop rest true false
    else dollarLoop rest saw saw

/-- Python `re.search` of the `\$[^\$]+\$` alternative: a dollar-delimited
placeholder with a nonempty dollar-free interior occurs somewhere. -/
def dollarSearch (cs : List Char) : Bool := dollarLoop cs false false

/-- Match of the `__PROTECTED_\d+__` alternative anchored at the head of the
list: the literal prefix, then at least one (ASCII) digit, then `__`. -/
def protAt (cs : List Char) : Bool :=
  "__PROTECTED_".data.isPrefixOf cs &&
    (let rest := cs.drop 12
     !(rest.takeWhile Char.isDigit).isEmpty &&
       ['_', '_'].isPrefixOf (rest.dropWhile Char.isDigit))

/-- Python `re.search` of the `__PROTECTED_\d+__` alternative: the protected
marker occurs at some position. -/
def protSearch : List Char → Bool
  | [] => false
  | c :: rest => protAt (c :: rest) || protSearch rest

/-- Python `PLACEHOLDER_PATTERN.search(text)` for
`re.compile(r"\$[^\$]+\$|__PROTECTED_\d+__")`. -/
def placeholderSearch (cs : List Char) : Bool := dollarSearch cs || protSearch cs

/-- The script's `should_skip(text)`: empty cell, literal `\n` escape,
bracketed substring, or placeholder/protected marker. -/
def should_skip (text : String) : Bool :=
  if text.data = [] then true
  else if hasLitNewline text.data then true
  else if bracketSearch text.data then true
  else placeholderSearch text.data

/-- The script's `remove_leading_inverted_exclamation(text)`: drop one leading
`¡` if present (`text.startswith('¡')` followed by `text[1:]`). -/
def remove_leading_inverted_exclamation (text : String) : String :=
  match text.data with
  | [] => text
  | c :: rest => if c = '¡' then String.mk rest else text

/-- Python `w in DICT` / `DICT[w]` - exact-case dictionary lookup of a token. -/
def lookupExact (w : List Char) : Option (String × String) :=
  DICT.find? (fun kv => kv.1.data == w)

/-- The `for k, v in DICT.items(): if k.lower() == lw` loop - first entry whose
key matches the token case-insensitively, in dictionary insertion order. -/
def lookupCI (w : List Char) : Option (String × String) :=
  DICT.find? (fun kv => pyLowerL kv.1.data == pyLowerL w)

/-- Python `v[0].upper() + v[1:]` - capitalize the first character of a word. -/
def capitalizeFirst (v : String) : String :=
  match v.data with
  | [] => v
  | c :: rest => String.mk (pyUpperChar c :: rest)

/-- The script's `repl(match)` callback: exact lookup first; else the first
case-insensitive dictionary hit, with the value's first character capitalized
exactly when the token's first character is uppercase; else the token itself. -/
def repl (w : List Char) : List Char :=
  match lookupExact w with
  | some kv => kv.2.data
  | none =>
    match lookupCI w with
    | some kv =>
      match w with
      | [] => w
      | c :: _ => if pyIsUpperChar c then (capitalizeFirst kv.2).data else kv.2.data
    | none => w

/-- Fuel-indexed scanner for `re.sub(r"[\wÁÉÍÓÚáéíóúÑñÜüçÇ]+", repl, text)`:
each maximal run of word characters is replaced by `repl` of the run, all other
characters pass through.  One unit of fuel is spent per step and each step
consumes at least one character, so `fuel = length` suffices. -/
def tokenSubAux : Nat → List Char → List Char
  | 0, _ => []
  | _ + 1, [] => []
  | n + 1, c :: rest =>
    if isWordChar c then
      repl (c :: rest.takeWhile isWordChar) ++ tokenSubAux n (rest.dropWhile isWordChar)
    else c :: tokenSubAux n rest

/-- Python `re.sub(r"[\wÁÉÍÓÚáéíóúÑñÜüçÇ]+", repl, text)`. -/
def tokenSub (cs : List Char) : List Char := tokenSubAux cs.length cs

/-- The script's `translate_text(text)`: skipped cells come back unchanged as
`BLOQUEADO`; otherwise one leading `¡` is stripped, tokens are substituted, and
the status is `TRADUZIDO` iff the result differs from the original cell. -/
def translate_text (text : String) : String × String :=
  if should_skip text then (text, "BLOQUEADO")
  else
    let stripped := remove_leading_inverted_exclamation text
    let translated := String.mk (tokenSub stripped.data)
    (translated, if translated = text then "IGNORADO" else "TRADUZIDO")

/-- Python `c` is whitespace for `str.strip()` / `str.isspace()`, on the
ASCII/Latin-1 repertoire: `\t\n\v\f\r`, space, the separators `\x1c`-`\x1f`,
`\x85` and `\xa0`. -/
def pyIsSpace (c : Char) : Bool :=
  (0x09 ≤ c.toNat && c.toNat ≤ 0x0D) || c.toNat = 0x20 ||
    (0x1C ≤ c.toNat && c.toNat ≤ 0x1F) || c.toNat = 0x85 || c.toNat = 0xA0

/-- Python `s.strip()` on a character list: drop whitespace from both ends. -/
def stripList (cs : List Char) : List Char :=
  ((cs.dropWhile pyIsSpace).reverse.dropWhile pyIsSpace).reverse

/-- Python `c.strip().upper()` applied to one header column name, as in the
header-detection loop of the script. -/
def normCol (s : String) : String :=
  String.mk ((stripList s.data).map pyUpperChar)

/-- The `for i, c in enumerate(cols)` loop of `detect_spanish_header`, started
at running index `n`: first index whose normalized column name is `SPANISH`. -/
def spanishIndexFrom : List String → Nat → Option Nat
  | [], _ => none
  | c :: rest, n => if normCol c = "SPANISH" then some n else spanishIndexFrom rest (n + 1)

/-- The script's `detect_spanish_header(cols)`: index of the column named
`SPANISH` (case-insensitive, stripped); else the fixed fallback index 5 when
the header has more than 5 columns; else no target column. -/
def detect_spanish_header (cols : List String) : Option Nat :=
  match spanishIndexFrom cols 0 with
  | some i => some i
  | none => if cols.length > 5 then some 5 else none

/-- Split a character list at its first `;`, if any (the single-split step of
Python `s.split(';', 1)` and of bounded `split`). -/
def splitFirstSemi : List Char → Option (List Char × List Char)
  | [] => none
  | c :: rest =>
    if c = ';' then some ([], rest)
    else
      match splitFirstSemi rest with
      | none => none
      | some (pre, post) => some (c :: pre, post)

/-- Python `ln.split(';', maxsplit)`: at most `maxsplit` splits, remainder kept
whole as the last field. -/
def splitSemiMax : Nat → List Char → List String
  | 0, cs => [String.mk cs]
  | n + 1, cs =>
    match splitFirstSemi cs with
    | none => [String.mk cs]
    | some (pre, post) => String.mk pre :: splitSemiMax n post

/-- Accumulator loop for Python `s.split(';')` (unbounded split). -/
def splitSemiAllGo : List Char → List Char → List String
  | [], acc => [String.mk acc.reverse]
  | c :: rest, acc =>
    if c = ';' then String.mk acc.reverse :: splitSemiAllGo rest []
    else splitSemiAllGo rest (c :: acc)

/-- Python `header.split(';')`. -/
def splitSemiAll (cs : List Char) : List String := splitSemiAllGo cs []

/-- Python `';'.join(parts)`, producing a character list. -/
def joinSemi : List String → List Char
  | [] => []
  | [s] => s.data
  | s :: rest => s.data ++ ';' :: joinSemi rest

/-- Line-break characters of Python `str.splitlines()` on the ASCII/Latin-1
repertoire: `\n`, `\r`, `\v`, `\f`, `\x1c`-`\x1e` and `\x85`. -/
def pyIsLineBreak (c : Char) : Bool :=
  c = '\n' || c = '\r' || c.toNat = 0x0B || c.toNat = 0x0C ||
    (0x1C ≤ c.toNat && c.toNat ≤ 0x1E) || c.toNat = 0x85

/-- Accumulator loop for Python `str.splitlines()`: `\r\n` counts as a single
break, every other break character separately; no trailing empty line. -/
def splitlinesGo : List Char → List Char → List String
  | [], acc => if acc = [] then [] else [String.mk acc.reverse]
  | '\r' :: '\n' :: rest, acc => String.mk acc.reverse :: splitlinesGo rest []
  | c :: rest, acc =>
    if pyIsLineBreak c then String.mk acc.reverse :: splitlinesGo rest []
    else splitlinesGo rest (c :: acc)

/-- Python `f.read().splitlines()`. -/
def splitlines (cs : List Char) : List String := splitlinesGo cs []

/-- Python `'\n'.join(out_lines)`, on character lists. -/
def joinNl : List (List Char) → List Char
  | [] => []
  | [l] => l
  | l :: rest => l ++ '\n' :: joinNl rest

/-- The per-data-line body of the `for ln in lines[1:]` loop of
`process_file`: comment lines and malformed lines pass through; otherwise the
line is split into the part left of the target column, the target cell and the
opaque right remainder, the cell is translated, and the line reassembled.
Returns the rewritten line and whether this line counted as `TRADUZIDO`. -/
def rewrite_line (spanish_idx : Nat) (ln : String) : String × Bool :=
  if ln.data.head? = some '#' then (ln, false)
  else
    let left_parts := splitSemiMax spanish_idx ln.data
    if left_parts.length < spanish_idx + 1 then (ln, false)
    else
      let left : List Char := joinSemi (left_parts.take spanish_idx)
      let rest : String := left_parts.getD spanish_idx ""
      let sr : String × String :=
        match splitFirstSemi rest.data with
        | some (pre, post) => (String.mk pre, String.mk (';' :: post))
        | none => (rest, "")
      let res := translate_text sr.1
      let new_line : List Char :=
        if left ≠ [] then left ++ ';' :: res.1.data ++ sr.2.data
        else res.1.data ++ sr.2.data
      (String.mk new_line, res.2 = "TRADUZIDO")

/-- The script's `process_file(path)`, as a function of the file's decoded
text content.  Returns the file-level status, the `translated_count`, and
`some` new file content when the script overwrites the file (`none` when it
returns early without writing). -/
def process_file (content : String) : String × Nat × Option String :=
  match splitlines content.data with
  | [] => ("IGNORADO", 0, none)
  | header :: body =>
    match detect_spanish_header (splitSemiAll header.data) with
    | none => ("IGNORADO", 0, none)
    | some spanish_idx =>
      let outs := body.map (rewrite_line spanish_idx)
      let translated_count := (outs.filter (fun r => r.2)).length
      let out := joinNl (header.data :: outs.map (fun r => r.1.data)) ++ ['\n']
      ("TRADUZIDO", translated_count, some (String.mk out))

/-- One candidate file of the batch run: its name, its on-disk byte size as
reported by `stat()`, and its decoded text content. -/
structure SimFile where
  name : String
  size : Nat
  content : String
deriving DecidableEq

/-- Python `CSV_DIR.glob('*.csv')` membership: the file name ends in `.csv`. -/
def endsWithCsv (name : String) : Bool :=
  ['.', 'c', 's', 'v'].isSuffixOf name.data

/-- Stable insertion (by name) used to model Python `sorted(...)`. -/
def insertByName (f : SimFile) : List SimFile → List SimFile
  | [] => [f]
  | g :: rest => if g.name < f.name then g :: insertByName f rest else f :: g :: rest

/-- Python `sorted(CSV_DIR.glob('*.csv'))`: stable sort of the candidate files
by name. -/
def sortByName (files : List SimFile) : List SimFile :=
  files.foldr insertByName []

/-- The loop body of `main()` for one file: skip the log file itself, skip
files at or below `large_threshold = 10 * 1024` bytes, otherwise process the
file, append one `(name, 'SCRIPT', status)` result row and record the write
that `process_file` performed. -/
def mainStep (acc : List (String × String × String) × List (String × String))
    (f : SimFile) : List (String × String × String) × List (String × String) :=
  if f.name = "translated_files_log.txt" then acc
  else if f.size ≤ 10 * 1024 then acc
  else
    let r := process_file f.content
    (acc.1 ++ [(f.name, "SCRIPT", r.1)],
     acc.2 ++ match r.2.2 with | some c => [(f.name, c)] | none => [])

/-- The script's `main()` over a modelled directory listing: the first
component is the `results` list, i.e. exactly the rows written to the log file
(one `name;SCRIPT;STATUS` line each); the second lists the file overwrites
performed, as `(name, new content)` pairs. -/
def runBatch (files : List SimFile) :
    List (String × String × String) × List (String × String) :=
  (sortByName (files.filter (fun f => endsWithCsv f.name))).foldl mainStep ([], [])

-- Concrete evaluations of the embedding, checked against hand-traced runs of the script.
example : detect_spanish_header (splitSemiAll "CODE;ENGLISH;FRENCH;GERMAN;;SPANISH;x".data) = some 5 := by decide
example : detect_spanish_header ["a", " spanish "] = some 1 := by decide
example : detect_spanish_header ["a", "b"] = none := by decide
example : detect_spanish_header ["a", "b", "c", "d", "e", "f", "g"] = some 5 := by decide
example : splitlines "a\r\nb\rc\nd\n".data = ["a", "b", "c", "d"] := by decide
example : splitlines "".data = [] := by decide
example : splitlines "\n".data = [""] := by decide
example : splitSemiMax 2 "a;b;c;d".data = ["a", "b", "c;d"] := by decide
example : splitSemiMax 0 "a;b".data = ["a;b"] := by decide
example : rewrite_line 1 ";hola" = ("hola", false) := by decide
example : rewrite_line 1 "x;Rey;z;;w" = ("x;Rei;z;;w", true) := by decide
example : rewrite_line 2 "x;y" = ("x;y", false) := by decide
example : rewrite_line 0 "Rey;b" = ("Rei;b", true) := by decide
example : rewrite_line 1 "#x;Rey" = ("#x;Rey", false) := by decide
example : process_file "X;SPANISH\n;hola" = ("TRADUZIDO", 0, some "X;SPANISH\nhola\n") := by decide
example : process_file "" = ("IGNORADO", 0, none) := by decide
example : process_file "a;b\nc;d" = ("IGNORADO", 0, none) := by decide
example : runBatch [⟨"a.csv", 10241, "a;b"⟩] = ([("a.csv", "SCRIPT", "IGNORADO")], []) := by decide
example : runBatch [⟨"a.csv", 10240, "a;b"⟩] = ([], []) := by decide
example : runBatch [⟨"a.txt", 99999, "a;b"⟩] = ([], []) := by decide
example : runBatch [⟨"b.csv", 20000, "X;SPANISH\nx;Rey"⟩] =
    ([("b.csv", "SCRIPT", "TRADUZIDO")], [("b.csv", "X;SPANISH\nx;Rei\n")]) := by decide
example : process_file "X;SPANISH\nRey" = ("TRADUZIDO", 0, some "X;SPANISH\nRey\n") := by decide

theorem tokenSubAux_nil : ∀ n, tokenSubAux n [] = []
  | 0 => rfl
  | _ + 1 => rfl

theorem should_skip_iff (text : String) :
    should_skip text = true ↔
      (text.data = [] ∨ hasLitNewline text.data = true ∨ bracketSearch text.data = true ∨
        dollarSearch text.data = true ∨ protSearch text.data = true) := by
  unfold should_skip placeholderSearch
  split_ifs with h1 h2 h3 <;> simp_all

theorem spanishIndexFrom_found (cols : List String) :
    ∀ n i : Nat, i < cols.length → normCol (cols.getD i "") = "SPANISH" →
      ∃ j, j < cols.length ∧ spanishIndexFrom cols n = some (n + j) ∧
        normCol (cols.getD j "") = "SPANISH" ∧ j ≤ i ∧
        ∀ k, k < j → normCol (cols.getD k "") ≠ "SPANISH" := by
  induction cols with
  | nil => intro n i hi; simp at hi
  | cons c rest ih =>
    intro n i hi hsp
    by_cases hc : normCol c = "SPANISH"
    · refine ⟨0, by simp, ?_, by simpa using hc, Nat.zero_le i, ?_⟩
      · simp [spanishIndexFrom, hc]
      · intro k hk; omega
    · cases i with
      | zero => exact absurd (by simpa using hsp) hc
      | succ i2 =>
        have hi2 : i2 < rest.length := by simpa using hi
        have hsp2 : normCol (rest.getD i2 "") = "SPANISH" := by simpa using hsp
        obtain ⟨j, hj, heq, hjs, hle, hmin⟩ := ih (n + 1) i2 hi2 hsp2
        refine ⟨j + 1, by simpa using hj, ?_, by simpa using hjs,
          Nat.succ_le_succ hle, ?_⟩
        · rw [show n + (j + 1) = n + 1 + j by omega]
          simpa [spanishIndexFrom, hc] using heq
        · intro k hk
          cases k with
          | zero => simpa using hc
          | succ k2 => simpa using hmin k2 (by omega)

/-- Claim C6: whenever some column's trimmed upper-cased name equals `SPANISH`,
`detect_spanish_header` returns the index of such a column (never the
positional fallback 5 over a non-`SPANISH` column, never `none`). -/
theorem detect_spanish_header_finds_named_column (cols : List String) (i : Nat)
    (hi : i < cols.length) (hsp : normCol (cols.getD i "") = "SPANISH") :
    ∃ j, j < cols.length ∧ detect_spanish_header cols = some j ∧
      normCol (cols.getD j "") = "SPANISH" := by
  obtain ⟨j, hj, heq, hjs, -, -⟩ := spanishIndexFrom_found cols 0 i hi hsp
  exact ⟨j, hj, by simp [detect_spanish_header, heq], hjs⟩

theorem detect_spanish_header_finds_named_column_witness :
    normCol ((["ID", " Spanish "] : List String).getD 1 "") = "SPANISH" ∧
    (∃ j, j < (["ID", " Spanish "] : List String).length ∧
      detect_spanish_header ["ID", " Spanish "] = some j ∧
      normCol ((["ID", " Spanish "] : List String).getD j "") = "SPANISH") :=
  ⟨by decide,
   detect_spanish_header_finds_named_column ["ID", " Spanish "] 1 (by decide) (by decide)⟩

/-- Claim C9: with several columns named `SPANISH` (here: two, at distinct
positions), `detect_spanish_header` returns the smallest, i.e. leftmost, index
whose column is named `SPANISH`. -/
theorem detect_spanish_header_leftmost (cols : List String) (i1 i2 : Nat)
    (h1 : i1 < cols.length) (_h2 : i2 < cols.length) (_h12 : i1 < i2)
    (hs1 : normCol (cols.getD i1 "") = "SPANISH")
    (_hs2 : normCol (cols.getD i2 "") = "SPANISH") :
    ∃ j, detect_spanish_header cols = some j ∧ j ≤ i1 ∧
      normCol (cols.getD j "") = "SPANISH" ∧
      ∀ k, k < j → normCol (cols.getD k "") ≠ "SPANISH" := by
  obtain ⟨j, hj, heq, hjs, hle, hmin⟩ := spanishIndexFrom_found cols 0 i1 h1 hs1
  exact ⟨j, by simp [detect_spanish_header, heq], hle, hjs, hmin⟩

theorem detect_spanish_header_leftmost_witness :
    normCol ((["x", "spanish", "SPANISH"] : List String).getD 1 "") = "SPANISH" ∧
    normCol ((["x", "spanish", "SPANISH"] : List String).getD 2 "") = "SPANISH" ∧
    (∃ j, detect_spanish_header ["x", "spanish", "SPANISH"] = some j ∧ j ≤ 1 ∧
      normCol ((["x", "spanish", "SPANISH"] : List String).getD j "") = "SPANISH" ∧
      ∀ k, k < j → normCol ((["x", "spanish", "SPANISH"] : List String).getD k "") ≠ "SPANISH") :=
  ⟨by decide, by decide,
   detect_spanish_header_leftmost ["x", "spanish", "SPANISH"] 1 2 (by decide) (by decide)
     (by decide) (by decide) (by decide)⟩

/-- Claim C2: on an eligible cell that is one maximal word-character token, if
the token misses the exact-case lookup but hits the case-insensitive lookup at
value `v`, the substituter outputs `v` with its first character upper-cased
when the token starts with an uppercase character, and outputs `v` verbatim
(its first character not capitalized by the rule) otherwise. -/
theorem translate_ci_preserves_initial_case (c : Char) (cs : List Char) (k v : String)
    (hw : ∀ x ∈ c :: cs, isWordChar x = true)
    (hskip : should_skip (String.mk (c :: cs)) = false)
    (hex : lookupExact (c :: cs) = none)
    (hci : lookupCI (c :: cs) = some (k, v)) :
    (translate_text (String.mk (c :: cs))).1 =
      if pyIsUpperChar c = true then capitalizeFirst v else v := by
  have hc : isWordChar c = true := hw c (List.mem_cons_self c cs)
  have hne : c ≠ '¡' := fun h => by rw [h] at hc; exact absurd hc (by decide)
  have hcs : ∀ x ∈ cs, isWordChar x = true := fun x hx => hw x (List.mem_cons_of_mem c hx)
  have htw : cs.takeWhile isWordChar = cs := by rw [List.takeWhile_eq_self_iff]; exact hcs
  have hdw : cs.dropWhile isWordChar = [] := by rw [List.dropWhile_eq_nil_iff]; exact hcs
  have hrl : remove_leading_inverted_exclamation (String.mk (c :: cs)) = String.mk (c :: cs) := by
    simp [remove_leading_inverted_exclamation, hne]
  have hrepl : repl (c :: cs) =
      if pyIsUpperChar c then (capitalizeFirst v).data else v.data := by
    simp [repl, hex, hci]
  have htok : tokenSub (c :: cs) = repl (c :: cs) := by
    simp [tokenSub, tokenSubAux, hc, htw, hdw, tokenSubAux_nil]
  simp only [translate_text, hskip, Bool.false_eq_true, if_false, hrl, htok, hrepl]
  by_cases hu : pyIsUpperChar c = true <;> simp [hu]

theorem translate_ci_preserves_initial_case_witness :
    (translate_text (String.mk ['R', 'E', 'Y'])).1 = "Rei" := by
  have h := translate_ci_preserves_initial_case 'R' ['E', 'Y'] "Rey" "Rei"
    (by decide) (by decide) (by decide) (by decide)
  exact h.trans (by decide)

/-- Claim C5: `translate_text` returns status `BLOQUEADO` (with the cell
unchanged) exactly when the cell is empty, contains the literal `\n` escape,
contains a bracketed substring, or contains a `$...$` placeholder or a
`__PROTECTED_<digits>__` marker. -/
theorem translate_blocked_iff_skip_rule (text : String) :
    ((translate_text text).2 = "BLOQUEADO" ↔
      (text.data = [] ∨ hasLitNewline text.data = true ∨ bracketSearch text.data = true ∨
        dollarSearch text.data = true ∨ protSearch text.data = true)) ∧
    (should_skip text = true → translate_text text = (text, "BLOQUEADO")) := by
  refine ⟨?_, fun hs => by simp [translate_text, hs]⟩
  by_cases hs : should_skip text = true
  · simpa [translate_text, hs] using (should_skip_iff text).mp hs
  · have hs2 : should_skip text = false := by simpa using hs
    apply iff_of_false
    · simp only [translate_text, hs2, Bool.false_eq_true, if_false]
      split <;> decide
    · exact fun h => hs ((should_skip_iff text).mpr h)

theorem translate_blocked_iff_skip_rule_witness :
    (translate_text "[a]").2 = "BLOQUEADO" ∧ translate_text "[a]" = ("[a]", "BLOQUEADO") :=
  ⟨(translate_blocked_iff_skip_rule "[a]").1.mpr
      (Or.inr (Or.inr (Or.inl (by decide)))),
   (translate_blocked_iff_skip_rule "[a]").2 (by decide)⟩

/-- Claim C4 counterexample: the code strips only the inverted exclamation
mark `¡`; an eligible cell beginning with the inverted question mark `¿` keeps
it, although token substitution of the rest leaves `Hola` unchanged, so the
claimed stripping would have produced `"Hola"`. -/
theorem inverted_question_not_stripped_cex :
    translate_text "¿Hola" = ("¿Hola", "IGNORADO") ∧ ("¿Hola" : String) ≠ "Hola" ∧
      translate_text "Hola" = ("Hola", "IGNORADO") := by decide

/-- Claim C4 (amended): for every eligible cell, `translate_text` substitutes
tokens in the cell with one leading `¡` (inverted exclamation mark only)
stripped beforehand; a cell starting with any other character, `¿` included, is
passed to token substitution unchanged. -/
theorem leading_inverted_exclamation_stripped (text : String)
    (helig : should_skip text = false) :
    (translate_text text).1 =
        String.mk (tokenSub (remove_leading_inverted_exclamation text).data) ∧
      (∀ cs : List Char,
        remove_leading_inverted_exclamation (String.mk ('¡' :: cs)) = String.mk cs) ∧
      (∀ c : Char, ∀ cs : List Char, c ≠ '¡' →
        remove_leading_inverted_exclamation (String.mk (c :: cs)) = String.mk (c :: cs)) := by
  refine ⟨by simp [translate_text, helig], ?_, ?_⟩
  · intro cs; simp [remove_leading_inverted_exclamation]
  · intro c cs hc; simp [remove_leading_inverted_exclamation, hc]

theorem leading_inverted_exclamation_stripped_witness :
    should_skip "¡Hola" = false ∧ (translate_text "¡Hola").1 = "Hola" := by
  refine ⟨by decide, ?_⟩
  exact ((leading_inverted_exclamation_stripped "¡Hola" (by decide)).1).trans (by decide)

/-- Claim C8: every value of the translation dictionary is a fixed point of
the substituter, so running the substituter on its own output changes nothing
for any word already present as a dictionary value. -/
theorem translate_text_fixes_dict_values (v : String) (hv : v ∈ DICT.map Prod.snd) :
    (translate_text v).1 = v ∧
      translate_text ((translate_text v).1) = translate_text v := by
  have key : ∀ w ∈ DICT.map Prod.snd, (translate_text w).1 = w := by decide
  exact ⟨key v hv, by rw [key v hv]⟩

theorem translate_text_fixes_dict_values_witness :
    ("Rei" ∈ DICT.map Prod.snd) ∧ (translate_text "Rei").1 = "Rei" :=
  ⟨by decide, (translate_text_fixes_dict_values "Rei" (by decide)).1⟩

/-- Claim C10: a file whose content splits into zero lines makes `process_file`
return status `IGNORADO` with translated count 0 and perform no write. -/
theorem process_file_empty_no_write (content : String)
    (h : splitlines content.data = []) :
    process_file content = ("IGNORADO", 0, none) := by
  simp [process_file, h]

theorem process_file_empty_no_write_witness :
    splitlines ("" : String).data = [] ∧ process_file "" = ("IGNORADO", 0, none) :=
  ⟨by decide, process_file_empty_no_write "" (by decide)⟩

/-- Claim C1 exhibit: with the target column located at index 1 and the data
line `;hola` (whose column 0 is empty), the target cell `hola` is left
unchanged by translation, yet the rewritten line is `hola`: the empty column 0
and its semicolon delimiter are dropped, so column texts other than the target
column are not byte-identical between input and output. -/
theorem process_file_drops_empty_first_column :
    process_file "X;SPANISH\n;hola" = ("TRADUZIDO", 0, some "X;SPANISH\nhola\n") ∧
      detect_spanish_header (splitSemiAll ("X;SPANISH" : String).data) = some 1 ∧
      rewrite_line 1 ";hola" = ("hola", false) ∧
      (translate_text "hola").1 = "hola" := by decide

/-- Claim C7: the batch size gate is strict - a candidate `.csv` file of at
most `10 * 1024` bytes is skipped (no log row, no write), and one of more than
`10 * 1024` bytes is processed and logged with its `process_file` status. -/
theorem size_gate_strict (f : SimFile) (hcsv : endsWithCsv f.name = true)
    (hname : f.name ≠ "translated_files_log.txt") :
    (f.size ≤ 10 * 1024 → runBatch [f] = ([], [])) ∧
    (10 * 1024 < f.size →
      (runBatch [f]).1 = [(f.name, "SCRIPT", (process_file f.content).1)]) := by
  have hfil : [f].filter (fun g => endsWithCsv g.name) = [f] := by simp [hcsv]
  constructor
  · intro hle
    simp [runBatch, hfil, sortByName, insertByName, mainStep, hname, hle]
  · intro hgt
    have hle : ¬ f.size ≤ 10 * 1024 := by omega
    simp [runBatch, hfil, sortByName, insertByName, mainStep, hname, hle]

theorem size_gate_strict_witness :
    runBatch [SimFile.mk "a.csv" (10 * 1024) "x;SPANISH\ny;Rey"] = ([], []) ∧
    (runBatch [SimFile.mk "b.csv" (10 * 1024 + 1) ""]).1 =
      [("b.csv", "SCRIPT", "IGNORADO")] := by
  constructor
  · exact (size_gate_strict (SimFile.mk "a.csv" (10 * 1024) "x;SPANISH\ny;Rey")
      (by decide) (by decide)).1 (by decide)
  · exact ((size_gate_strict (SimFile.mk "b.csv" (10 * 1024 + 1) "")
      (by decide) (by decide)).2 (by decide)).trans (by decide)

/-- Claim C3 counterexample: a `.csv` file of 10241 bytes (above the 10 KiB
threshold) whose header `a;b` has no locatable target column still produces a
log row, `a.csv;SCRIPT;IGNORADO` - the log is not restricted to processed
files. -/
theorem column_miss_logged_cex :
    (runBatch [SimFile.mk "a.csv" 10241 "a;b"]).1 = [("a.csv", "SCRIPT", "IGNORADO")] ∧
      detect_spanish_header (splitSemiAll ("a;b" : String).data) = none ∧
      10 * 1024 < 10241 := by decide

/-- Claim C3 (amended): a candidate `.csv` file above the size threshold is
always logged, even when its header lacks a locatable target column - in that
case with one log row `name;SCRIPT;IGNORADO` and no file write; only files at
or below the size threshold are absent from the log. -/
theorem column_miss_file_logged_ignorado (f : SimFile) (header : String)
    (body : List String)
    (hcsv : endsWithCsv f.name = true) (hname : f.name ≠ "translated_files_log.txt")
    (hsize : 10 * 1024 < f.size)
    (hlines : splitlines f.content.data = header :: body)
    (hmiss : detect_spanish_header (splitSemiAll header.data) = none) :
    (runBatch [f]).1 = [(f.name, "SCRIPT", "IGNORADO")] ∧ (runBatch [f]).2 = [] := by
  have hpf : process_file f.content = ("IGNORADO", 0, none) := by
    simp [process_file, hlines, hmiss]
  have hfil : [f].filter (fun g => endsWithCsv g.name) = [f] := by simp [hcsv]
  have hle : ¬ f.size ≤ 10 * 1024 := by omega
  constructor <;>
    simp [runBatch, hfil, sortByName, insertByName, mainStep, hname, hle, hpf]

theorem column_miss_file_logged_ignorado_witness :
    (runBatch [SimFile.mk "b.csv" 20000 "x;y"]).1 = [("b.csv", "SCRIPT", "IGNORADO")] ∧
      (runBatch [SimFile.mk "b.csv" 20000 "x;y"]).2 = [] :=
  column_miss_file_logged_ignorado (SimFile.mk "b.csv" 20000 "x;y") "x;y" []
    (by decide) (by decide) (by decide) (by decide) (by decide)
